import Mathlib

/-!
Verification of `src/backend/services/langflow_service.py`.

The service is embedded shallowly:

* JSON values become the inductive `Json`.
* The transport layer (httpx) is abstracted as an oracle
  `HttpCall → Nat → AttemptResult` giving, for each issued call and each
  0-based attempt index, what the wire does: deliver a `Response`
  (with status, body text and JSON-decode result) or raise a timeout /
  connection exception.  Exception message texts that httpx fabricates are
  carried as opaque strings.
* `_make_request_with_retry` becomes `_make_request_with_retry`, a pure
  function returning a `RetryTrace`: how many attempts ran, the exact
  backoff sleeps performed (in order), and the final outcome
  (`ok response` or the raised `LangflowServiceError` message).
* `get_flows` and `execute_flow` are built on top of that trace, with
  Python's dynamic behaviour (iteration over non-lists, `**`-unpacking of
  non-mappings) modelled explicitly.
-/

set_option autoImplicit false

namespace Langflow

/-- JSON values as produced by `response.json()`.  Numbers are modelled as
integers; no claim inspects numeric payloads. -/
inductive Json where
  | null
  | bool (b : Bool)
  | num (n : Int)
  | str (s : String)
  | arr (xs : List Json)
  | obj (kvs : List (String × Json))

/-- An HTTP response as seen by the service: status code, body text
(`response.text`) and the result of `response.json()` (`Except.error m`
models a `JSONDecodeError` with rendering `m`). -/
structure Response where
  status : Nat
  text : String
  jsonBody : Except String Json

/-- What one call to `client.request` does on a given attempt: return a
response, or raise one of the two transport exceptions the retry loop
catches. -/
inductive AttemptResult where
  | response (r : Response)
  | timeoutExc (msg : String)
  | connectExc (msg : String)

/-- The httpx exceptions recorded in `last_exception` by the retry loop. -/
inductive PyExc where
  | timeout (msg : String)
  | connect (msg : String)
  | httpStatus (r : Response)

/-- Rendering of `last_exception` by the f-string in the exhaustion message.
The exact httpx wording for `HTTPStatusError` is environment detail; it is
modelled as a fixed function of the response and treated as opaque. -/
def excStr : PyExc → String
  | .timeout m => m
  | .connect m => m
  | .httpStatus r => "HTTP status error " ++ toString r.status

/-- Message of the `LangflowServiceError` raised on a 4xx status
(`f"Client error {status}: {text}"`). -/
def clientErrorMsg (r : Response) : String :=
  "Client error " ++ toString r.status ++ ": " ++ r.text

/-- Message of the `LangflowServiceError` raised when all attempts are
exhausted (`f"Failed to make request after {max_retries + 1} attempts:
{last_exception}"`; `str(None) = "None"`). -/
def exhaustedMsg (maxRetries : Nat) (lastExc : Option PyExc) : String :=
  "Failed to make request after " ++ toString (maxRetries + 1) ++
    " attempts: " ++ (match lastExc with | none => "None" | some e => excStr e)

/-- Outcome of one iteration of the retry loop body. -/
inductive StepResult where
  | succeed (r : Response)
  | failFast (msg : String)
  | retryable (e : PyExc)

/-- One iteration of the `for attempt in range(max_retries + 1)` body:
`client.request` then `response.raise_for_status()` (which raises
`HTTPStatusError` for every non-2xx status), with the three `except`
clauses.  A status in [400, 500) raises `LangflowServiceError`
immediately; every other caught exception is recorded as retryable. -/
def attemptStep (oracle : Nat → AttemptResult) (attempt : Nat) : StepResult :=
  match oracle attempt with
  | .timeoutExc m => .retryable (.timeout m)
  | .connectExc m => .retryable (.connect m)
  | .response r =>
    if 200 ≤ r.status ∧ r.status < 300 then
      .succeed r
    else if 400 ≤ r.status ∧ r.status < 500 then
      .failFast (clientErrorMsg r)
    else
      .retryable (.httpStatus r)

/-- Final outcome of `_make_request_with_retry`: a returned response or a
raised `LangflowServiceError` carrying a message. -/
inductive RetryResult where
  | ok (r : Response)
  | serviceError (msg : String)

/-- Observable trace of one `_make_request_with_retry` run: number of
attempts performed, the `asyncio.sleep` durations in order, and the final
outcome. -/
structure RetryTrace where
  attempts : Nat
  sleeps : List Nat
  result : RetryResult

/-- The retry loop over the remaining attempt indices (the list is
`range(max_retries + 1)` at the top call).  Mirrors the source: success
returns at once; a 4xx raises at once (no sleep); a retryable failure
sleeps `2 ** attempt` when `attempt < max_retries`, then continues; an
empty list of remaining iterations raises the exhaustion error. -/
def retryLoop (oracle : Nat → AttemptResult) (maxRetries : Nat) :
    List Nat → Option PyExc → RetryTrace
  | [], lastExc => ⟨0, [], .serviceError (exhaustedMsg maxRetries lastExc)⟩
  | attempt :: rest, _ =>
    match attemptStep oracle attempt with
    | .succeed r => ⟨1, [], .ok r⟩
    | .failFast msg => ⟨1, [], .serviceError msg⟩
    | .retryable e =>
      let t := retryLoop oracle maxRetries rest (some e)
      ⟨t.attempts + 1,
       (if attempt < maxRetries then [2 ^ attempt] else []) ++ t.sleeps,
       t.result⟩

/-- One HTTP call as issued by the service methods. -/
structure HttpCall where
  method : String
  url : String
  params : List (String × String)
  headers : List (String × String)
  jsonPayload : Option Json

/-- Embedding of
`LangflowService._make_request_with_retry(method, url, max_retries)`,
run against a transport oracle. -/
def _make_request_with_retry (transport : HttpCall → Nat → AttemptResult)
    (call : HttpCall) (maxRetries : Nat) : RetryTrace :=
  retryLoop (transport call) maxRetries (List.range (maxRetries + 1)) none

/-- Python `rstrip('/')` as applied to `base_url` in `__init__`. -/
def rstripSlash (s : String) : String :=
  String.mk (List.reverse (List.dropWhile (fun c => c = '/') (List.reverse s.data)))

/-- Splits a character list at the first occurrence of the scheme separator
"://", returning the parts before and after it. -/
def findSchemeSep : List Char → Option (List Char × List Char)
  | [] => none
  | ':' :: '/' :: '/' :: rest => some ([], rest)
  | c :: rest =>
    match findSchemeSep rest with
    | none => none
    | some p => some (c :: p.1, p.2)

/-- Characters of the network-location part of a URL remainder: everything
up to the first slash. -/
def netlocChars : List Char → List Char
  | [] => []
  | '/' :: _ => []
  | c :: rest => c :: netlocChars rest

/-- Models `urllib.parse.urljoin` for the service's only call pattern: the
second argument is an absolute path (it starts with a slash) holding no dot
segments, query or fragment, so joining replaces the base URL's path with
it.  Bases without a scheme separator are outside the modelled fragment. -/
def urljoin (base rel : String) : String :=
  match findSchemeSep base.data with
  | some p => String.mk (p.1 ++ (':' :: '/' :: '/' :: netlocChars p.2)) ++ rel
  | none => rel

/-- The pydantic `FlowResponse` model of a flow record. -/
structure FlowResponse where
  id : String
  name : String
  folder_id : String
  is_component : Bool
  endpoint_name : Option String
  description : String
  data : Option Json
  access_type : String
  tags : List String
  mcp_enabled : Bool
  action_name : Option String
  action_description : Option String

/-- Field lookup in a decoded JSON object (keys are unique strings). -/
def getKey (kvs : List (String × Json)) (k : String) : Option Json :=
  List.lookup k kvs

/-- Validation of a required `str` field. -/
def reqStr (kvs : List (String × Json)) (k : String) : Except String String :=
  match getKey kvs k with
  | some (.str s) => .ok s
  | _ => .error ("validation error for field " ++ k)

/-- Validation of a required `bool` field. -/
def reqBool (kvs : List (String × Json)) (k : String) : Except String Bool :=
  match getKey kvs k with
  | some (.bool b) => .ok b
  | _ => .error ("validation error for field " ++ k)

/-- Validation of an `Optional[str] = None` field: absence and null give
`None`, a string gives the string, anything else fails. -/
def optStr (kvs : List (String × Json)) (k : String) :
    Except String (Option String) :=
  match getKey kvs k with
  | none => .ok none
  | some .null => .ok none
  | some (.str s) => .ok (some s)
  | some _ => .error ("validation error for field " ++ k)

/-- Value of an `Optional[Any] = None` field: absence and null give `None`,
any other value is accepted as-is. -/
def anyOpt (kvs : List (String × Json)) (k : String) : Option Json :=
  match getKey kvs k with
  | none => none
  | some .null => none
  | some v => some v

/-- Validation of the elements of a `List[str]` field. -/
def strListOf : List Json → Except String (List String)
  | [] => .ok []
  | .str s :: rest => (strListOf rest).map (fun l => s :: l)
  | _ :: _ => .error "validation error for a tags element"

/-- Validation of a required `List[str]` field. -/
def reqStrList (kvs : List (String × Json)) (k : String) :
    Except String (List String) :=
  match getKey kvs k with
  | some (.arr xs) => strListOf xs
  | _ => .error ("validation error for field " ++ k)

/-- Validation of one record against the `FlowResponse` schema, i.e.
`FlowResponse(**flow_data)` raising `ValidationError` on the error side.
Required fields demand the exact JSON type; optional string fields accept
null or absence; `data` is `Optional[Any]`.  Pydantic lax-mode coercions
beyond exact type matches are not exercised by any claim and are not
modelled. -/
def parseFlowRecord (kvs : List (String × Json)) : Except String FlowResponse := do
  let i ← reqStr kvs "id"
  let n ← reqStr kvs "name"
  let fid ← reqStr kvs "folder_id"
  let isc ← reqBool kvs "is_component"
  let en ← optStr kvs "endpoint_name"
  let d ← reqStr kvs "description"
  let acc ← reqStr kvs "access_type"
  let tg ← reqStrList kvs "tags"
  let mcp ← reqBool kvs "mcp_enabled"
  let an ← optStr kvs "action_name"
  let ad ← optStr kvs "action_description"
  .ok ⟨i, n, fid, isc, en, d, anyOpt kvs "data", acc, tg, mcp, an, ad⟩

/-- Python iteration (`for x in v`) over a decoded JSON value: lists yield
their elements, strings yield their characters as one-character strings,
dicts yield their keys; anything else raises `TypeError` (message text
approximates CPython's). -/
def pyIterate : Json → Except String (List Json)
  | .arr xs => .ok xs
  | .str s => .ok (s.data.map (fun c => Json.str (String.mk [c])))
  | .obj kvs => .ok (kvs.map (fun kv => Json.str kv.1))
  | .null => .error "'NoneType' object is not iterable"
  | .bool _ => .error "'bool' object is not iterable"
  | .num _ => .error "'int' object is not iterable"

/-- The validation loop of `get_flows`: `FlowResponse(**flow_data)` per
item, skipping items whose validation fails (`except ValidationError:
continue`).  An item that is not a mapping makes the `**` unpacking raise
`TypeError`, which the loop does not catch, aborting the whole loop. -/
def buildFlows : List Json → Except String (List FlowResponse)
  | [] => .ok []
  | .obj kvs :: rest =>
    match parseFlowRecord kvs with
    | .ok f => (buildFlows rest).map (fun l => f :: l)
    | .error _ => buildFlows rest
  | _ :: _ => .error "argument after ** must be a mapping"

/-- Python `type(x)` rendering, as interpolated by the unexpected-format
f-string. -/
def pyTypeName : Json → String
  | .null => "<class 'NoneType'>"
  | .bool _ => "<class 'bool'>"
  | .num _ => "<class 'int'>"
  | .str _ => "<class 'str'>"
  | .arr _ => "<class 'list'>"
  | .obj _ => "<class 'dict'>"

/-- Message of the `LangflowServiceError` raised on an unexpected
response shape. -/
def unexpectedFormatMsg (j : Json) : String :=
  "Unexpected response format: " ++ pyTypeName j

/-- The response-shape dispatch of `get_flows`: a dict containing a
"flows" key yields that key's value, a bare list yields itself, anything
else raises `LangflowServiceError` with the unexpected-format message.
Only the presence of the key is tested, never the type of its value. -/
def extractFlowsData : Json → Except String Json
  | .obj kvs =>
    match getKey kvs "flows" with
    | some v => .ok v
    | none => .error (unexpectedFormatMsg (.obj kvs))
  | .arr xs => .ok (.arr xs)
  | j => .error (unexpectedFormatMsg j)

/-- Default `base_url` of `LangflowService.__init__`. -/
def defaultBaseUrl : String := "http://localhost:7860"

/-- The single GET call issued by `get_flows`. -/
def getFlowsCall (baseUrl : String) : HttpCall :=
  ⟨"GET", urljoin (rstripSlash baseUrl) "/api/v1/flows/",
   [("header_flows", "true"), ("get_all", "true")], [], none⟩

/-- Processing of a decoded flows response body by `get_flows`: shape
dispatch, then the validation loop, with non-`LangflowServiceError`
exceptions of those stages wrapped in the fetch-failure message by the
outer `try/except`. -/
def processFlowsBody (body : Json) : Except String (List FlowResponse) :=
  match extractFlowsData body with
  | .error msg => .error msg
  | .ok flowsData =>
    match pyIterate flowsData with
    | .error m => .error ("Failed to fetch flows: " ++ m)
    | .ok items =>
      match buildFlows items with
      | .error m => .error ("Failed to fetch flows: " ++ m)
      | .ok flows => .ok flows

/-- Embedding of `LangflowService.get_flows`: the retry call, JSON
decoding, shape dispatch, per-record validation loop, and the outer
`try/except` that re-raises `LangflowServiceError` unchanged and wraps any
other exception as `LangflowServiceError` with the fetch-failure
message. -/
def get_flows (transport : HttpCall → Nat → AttemptResult)
    (baseUrl : String) : Except String (List FlowResponse) :=
  match _make_request_with_retry transport (getFlowsCall baseUrl) 3 with
  | ⟨_, _, .serviceError msg⟩ => .error msg
  | ⟨_, _, .ok resp⟩ =>
    match resp.jsonBody with
    | .error m => .error ("Failed to fetch flows: " ++ m)
    | .ok body => processFlowsBody body

/-- The pydantic `FlowExecutionRequest` model; `tweaks` is the key/value
list of a JSON object. -/
structure FlowExecutionRequest where
  input_value : String
  output_type : String
  input_type : String
  tweaks : List (String × Json)

/-- Construction of a `FlowExecutionRequest` from `input_value` alone,
using the pydantic field defaults. -/
def FlowExecutionRequest.withDefaults (input_value : String) :
    FlowExecutionRequest :=
  ⟨input_value, "chat", "chat", []⟩

/-- Serialisation `execution_request.model_dump()`: a JSON object holding
exactly the four model fields, in declaration order. -/
def FlowExecutionRequest.model_dump (r : FlowExecutionRequest) : Json :=
  .obj [("input_value", .str r.input_value),
        ("output_type", .str r.output_type),
        ("input_type", .str r.input_type),
        ("tweaks", .obj r.tweaks)]

/-- The pydantic `FlowExecutionResponse` model (`result` is `Any` and is
`None` on failure; `error` is `Optional[str]`). -/
structure FlowExecutionResponse where
  success : Bool
  result : Option Json
  error : Option String

/-- The single POST call issued by `execute_flow`. -/
def executeFlowCall (baseUrl flowId : String) (req : FlowExecutionRequest) :
    HttpCall :=
  ⟨"POST", urljoin (rstripSlash baseUrl) ("/api/v1/run/" ++ flowId), [],
   [("Content-Type", "application/json")], some req.model_dump⟩

/-- Embedding of `LangflowService.execute_flow`: one call to the retry
primitive, then `response.json()`.  A `LangflowServiceError` is converted
to a failure response carrying its message; any other exception (JSON
decoding) to a failure response with the unexpected-error message; nothing
is raised. -/
def execute_flow (transport : HttpCall → Nat → AttemptResult)
    (baseUrl flowId : String) (req : FlowExecutionRequest) :
    FlowExecutionResponse :=
  match _make_request_with_retry transport (executeFlowCall baseUrl flowId req) 3 with
  | ⟨_, _, .serviceError msg⟩ => ⟨false, none, some msg⟩
  | ⟨_, _, .ok resp⟩ =>
    match resp.jsonBody with
    | .error m =>
      ⟨false, none, some ("Unexpected error during flow execution: " ++ m)⟩
    | .ok body => ⟨true, some body, none⟩

/-- A transport that always answers HTTP 200 with the given JSON body. -/
def okTransport (body : Json) : HttpCall → Nat → AttemptResult :=
  fun _ _ => .response ⟨200, "", .ok body⟩

/-- Substring containment: `sub` occurs contiguously inside `s`. -/
def containsStr (s sub : String) : Prop :=
  ∃ l r, s = l ++ sub ++ r

/-- The successfully validated flows of a record list: one per record that
passes the Flow-schema validation, in the order received. -/
def validFlowsOf (records : List Json) : List FlowResponse :=
  records.filterMap (fun r =>
    match r with
    | .obj kvs => (parseFlowRecord kvs).toOption
    | _ => none)

/-- Whether a decoded JSON value is a list. -/
def isArrB : Json → Bool
  | .arr _ => true
  | _ => false

/-- Whether a decoded JSON value is a dict containing a "flows" key. -/
def hasFlowsKeyB : Json → Bool
  | .obj kvs => (getKey kvs "flows").isSome
  | _ => false

/-- Keys of a JSON object, in order (empty for non-objects). -/
def jsonObjKeys : Json → List String
  | .obj kvs => kvs.map Prod.fst
  | _ => []

/-- A sample HTTP call, used to instantiate transport oracles. -/
def sampleCall : HttpCall :=
  ⟨"GET", "http://localhost:7860/api/v1/flows/", [], [], none⟩

/-- A transport on which every attempt times out. -/
def allTimeout : HttpCall → Nat → AttemptResult :=
  fun _ _ => .timeoutExc "timed out"

/-- A transport that times out on the first attempt (index 0) and answers
HTTP 200 on every later attempt. -/
def timeoutThenOk : HttpCall → Nat → AttemptResult :=
  fun _ i =>
    if i = 0 then .timeoutExc "timed out"
    else .response ⟨200, "ok", .ok (Json.str "done")⟩

/-- A response with a redirect status: non-2xx, so `raise_for_status`
raises for it, yet its status lies outside both [400, 500) and
[500, 600). -/
def redirect300 : Response :=
  ⟨300, "redirect", .error "not json"⟩

/-- A transport answering status 300 on every attempt. -/
def transport300 : HttpCall → Nat → AttemptResult :=
  fun _ _ => .response redirect300

/-- A response with a client-error status. -/
def notFound404 : Response :=
  ⟨404, "flow not found", .error "not json"⟩

/-- A transport answering status 404 on every attempt. -/
def transport404 : HttpCall → Nat → AttemptResult :=
  fun _ _ => .response notFound404

/-- A record that validates against the Flow schema. -/
def sampleFlowRecord : Json :=
  .obj [("id", .str "flow-1"), ("name", .str "My Flow"),
        ("folder_id", .str "folder-1"), ("is_component", .bool false),
        ("description", .str "demo"), ("access_type", .str "PRIVATE"),
        ("tags", .arr [.str "chat"]), ("mcp_enabled", .bool true)]

/-- A record that fails validation (its id is a number and most required
fields are missing). -/
def invalidFlowRecord : Json :=
  .obj [("id", .num 5)]

/-- String append is associative. -/
theorem string_append_assoc (a b c : String) : a ++ b ++ c = a ++ (b ++ c) :=
  String.append_assoc a b c

/-- A concatenation whose left part has nonempty character data is not the
empty string. -/
theorem append_ne_empty_left (s t : String) (h : s.data ≠ []) : s ++ t ≠ "" := by
  intro he
  have hd : s.data ++ t.data = [] := by
    have := congrArg String.data he
    rwa [String.data_append] at this
  exact h (List.append_eq_nil.mp hd).1

/-- The exhaustion message is never empty. -/
theorem exhaustedMsg_ne_empty (maxRetries : Nat) (lastExc : Option PyExc) :
    exhaustedMsg maxRetries lastExc ≠ "" := by
  unfold exhaustedMsg
  rw [string_append_assoc, string_append_assoc]
  exact append_ne_empty_left _ _ (by decide)

/-- The client-error message is never empty. -/
theorem clientErrorMsg_ne_empty (r : Response) : clientErrorMsg r ≠ "" := by
  unfold clientErrorMsg
  rw [string_append_assoc, string_append_assoc]
  exact append_ne_empty_left _ _ (by decide)

/-- Unfolding of the loop body when the response is a success. -/
theorem attemptStep_response (oracle : Nat → AttemptResult) (a : Nat)
    (r : Response) (ho : oracle a = .response r) :
    attemptStep oracle a =
      if 200 ≤ r.status ∧ r.status < 300 then .succeed r
      else if 400 ≤ r.status ∧ r.status < 500 then .failFast (clientErrorMsg r)
      else .retryable (.httpStatus r) := by
  unfold attemptStep
  rw [ho]

/-- Inversion: the loop body fails fast only on a response whose status is
in [400, 500), and then with the client-error message of that response. -/
theorem attemptStep_failFast_inv (oracle : Nat → AttemptResult) (a : Nat)
    (msg : String) (h : attemptStep oracle a = .failFast msg) :
    ∃ r, oracle a = .response r ∧ 400 ≤ r.status ∧ r.status < 500 ∧
      msg = clientErrorMsg r := by
  cases ho : oracle a
  case timeoutExc m =>
    rw [show attemptStep oracle a = .retryable (.timeout m) by
      unfold attemptStep; rw [ho]] at h
    exact absurd h (by simp)
  case connectExc m =>
    rw [show attemptStep oracle a = .retryable (.connect m) by
      unfold attemptStep; rw [ho]] at h
    exact absurd h (by simp)
  case response r =>
    rw [attemptStep_response oracle a r ho] at h
    by_cases h1 : 200 ≤ r.status ∧ r.status < 300
    · rw [if_pos h1] at h; exact absurd h (by simp)
    · rw [if_neg h1] at h
      by_cases h2 : 400 ≤ r.status ∧ r.status < 500
      · rw [if_pos h2] at h
        refine ⟨r, rfl, h2.1, h2.2, ?_⟩
        cases h
        rfl
      · rw [if_neg h2] at h; exact absurd h (by simp)

/-- Unfolding of the retry loop on an exhausted iteration list. -/
theorem retryLoop_nil (oracle : Nat → AttemptResult) (maxR : Nat)
    (lastExc : Option PyExc) :
    retryLoop oracle maxR [] lastExc =
      ⟨0, [], .serviceError (exhaustedMsg maxR lastExc)⟩ := rfl

/-- Unfolding of the retry loop when the head attempt succeeds. -/
theorem retryLoop_cons_succeed (oracle : Nat → AttemptResult) (maxR a : Nat)
    (rest : List Nat) (lastExc : Option PyExc) (r : Response)
    (ha : attemptStep oracle a = .succeed r) :
    retryLoop oracle maxR (a :: rest) lastExc = ⟨1, [], .ok r⟩ := by
  show (match attemptStep oracle a with
    | .succeed r => (⟨1, [], .ok r⟩ : RetryTrace)
    | .failFast msg => ⟨1, [], .serviceError msg⟩
    | .retryable e =>
      ⟨(retryLoop oracle maxR rest (some e)).attempts + 1,
       (if a < maxR then [2 ^ a] else []) ++
         (retryLoop oracle maxR rest (some e)).sleeps,
       (retryLoop oracle maxR rest (some e)).result⟩) = _
  rw [ha]

/-- Unfolding of the retry loop when the head attempt raises the 4xx
client error. -/
theorem retryLoop_cons_failFast (oracle : Nat → AttemptResult) (maxR a : Nat)
    (rest : List Nat) (lastExc : Option PyExc) (msg : String)
    (ha : attemptStep oracle a = .failFast msg) :
    retryLoop oracle maxR (a :: rest) lastExc = ⟨1, [], .serviceError msg⟩ := by
  show (match attemptStep oracle a with
    | .succeed r => (⟨1, [], .ok r⟩ : RetryTrace)
    | .failFast msg => ⟨1, [], .serviceError msg⟩
    | .retryable e =>
      ⟨(retryLoop oracle maxR rest (some e)).attempts + 1,
       (if a < maxR then [2 ^ a] else []) ++
         (retryLoop oracle maxR rest (some e)).sleeps,
       (retryLoop oracle maxR rest (some e)).result⟩) = _
  rw [ha]

/-- Unfolding of the retry loop when the head attempt fails retryably. -/
theorem retryLoop_cons_retryable (oracle : Nat → AttemptResult) (maxR a : Nat)
    (rest : List Nat) (lastExc : Option PyExc) (e : PyExc)
    (ha : attemptStep oracle a = .retryable e) :
    retryLoop oracle maxR (a :: rest) lastExc =
      ⟨(retryLoop oracle maxR rest (some e)).attempts + 1,
       (if a < maxR then [2 ^ a] else []) ++
         (retryLoop oracle maxR rest (some e)).sleeps,
       (retryLoop oracle maxR rest (some e)).result⟩ := by
  show (match attemptStep oracle a with
    | .succeed r => (⟨1, [], .ok r⟩ : RetryTrace)
    | .failFast msg => ⟨1, [], .serviceError msg⟩
    | .retryable e =>
      ⟨(retryLoop oracle maxR rest (some e)).attempts + 1,
       (if a < maxR then [2 ^ a] else []) ++
         (retryLoop oracle maxR rest (some e)).sleeps,
       (retryLoop oracle maxR rest (some e)).result⟩) = _
  rw [ha]

/-- Every `LangflowServiceError` message the retry loop can raise is
nonempty. -/
theorem retryLoop_serviceError_msg_ne_empty (oracle : Nat → AttemptResult)
    (maxR : Nat) :
    ∀ (atts : List Nat) (lastExc : Option PyExc) (msg : String),
      (retryLoop oracle maxR atts lastExc).result = .serviceError msg →
      msg ≠ "" := by
  intro atts
  induction atts with
  | nil =>
    intro lastExc msg h
    rw [retryLoop_nil] at h
    cases h
    exact exhaustedMsg_ne_empty maxR lastExc
  | cons a rest ih =>
    intro lastExc msg h
    cases hs : attemptStep oracle a
    case succeed r =>
      rw [retryLoop_cons_succeed oracle maxR a rest lastExc r hs] at h
      exact absurd h (by simp)
    case failFast m =>
      rw [retryLoop_cons_failFast oracle maxR a rest lastExc m hs] at h
      cases h
      obtain ⟨r, _, _, _, hm⟩ := attemptStep_failFast_inv oracle a msg hs
      rw [hm]
      exact clientErrorMsg_ne_empty r
    case retryable e =>
      rw [retryLoop_cons_retryable oracle maxR a rest lastExc e hs] at h
      exact ih (some e) msg h

/-- A run over at least one attempt index performs at least one attempt. -/
theorem retryLoop_attempts_pos (oracle : Nat → AttemptResult) (maxR a : Nat)
    (rest : List Nat) (lastExc : Option PyExc) :
    1 ≤ (retryLoop oracle maxR (a :: rest) lastExc).attempts := by
  cases hs : attemptStep oracle a
  case succeed r =>
    rw [retryLoop_cons_succeed oracle maxR a rest lastExc r hs]
  case failFast m =>
    rw [retryLoop_cons_failFast oracle maxR a rest lastExc m hs]
  case retryable e =>
    rw [retryLoop_cons_retryable oracle maxR a rest lastExc e hs]
    exact Nat.le_add_left 1 _

/-- When every attempt in a block of consecutive indices fails retryably,
the loop runs the whole block and ends with the exhaustion error naming
the last recorded exception. -/
theorem retryLoop_all_retryable (oracle : Nat → AttemptResult) (maxR : Nat)
    (f : Nat → PyExc) :
    ∀ (k a : Nat) (lastExc : Option PyExc),
      (∀ i, a ≤ i → i < a + (k + 1) → attemptStep oracle i = .retryable (f i)) →
      (retryLoop oracle maxR (List.range' a (k + 1)) lastExc).attempts = k + 1 ∧
      (retryLoop oracle maxR (List.range' a (k + 1)) lastExc).result =
        .serviceError (exhaustedMsg maxR (some (f (a + k)))) := by
  intro k
  induction k with
  | zero =>
    intro a lastExc h
    have ha := h a (Nat.le_refl a) (by omega)
    rw [List.range'_succ,
        retryLoop_cons_retryable oracle maxR a _ lastExc (f a) ha,
        List.range'_zero, retryLoop_nil]
    exact ⟨rfl, rfl⟩
  | succ k ih =>
    intro a lastExc h
    have ha := h a (Nat.le_refl a) (by omega)
    have hrec := ih (a + 1) (some (f a)) (fun i h1 h2 => h i (by omega) (by omega))
    rw [List.range'_succ,
        retryLoop_cons_retryable oracle maxR a _ lastExc (f a) ha]
    refine ⟨?_, ?_⟩
    · show (retryLoop oracle maxR (List.range' (a + 1) (k + 1)) (some (f a))).attempts + 1 = k + 1 + 1
      rw [hrec.1]
    · show (retryLoop oracle maxR (List.range' (a + 1) (k + 1)) (some (f a))).result = _
      rw [hrec.2]
      have heq : a + 1 + k = a + (k + 1) := by omega
      rw [heq]

/-- The backoff schedule of any run over the tail of the original
iteration range: writing k for the number of attempts performed, the
sleeps are exactly 2^a, ..., 2^(a+k-2) — one wait of 2^attempt after each
failed non-final attempt and none after the final one. -/
theorem retryLoop_sleeps (oracle : Nat → AttemptResult) (maxR : Nat) :
    ∀ (k a : Nat) (lastExc : Option PyExc), a + k = maxR + 1 →
      (retryLoop oracle maxR (List.range' a k) lastExc).sleeps =
        (List.range' a
          ((retryLoop oracle maxR (List.range' a k) lastExc).attempts - 1)).map
          (fun i => 2 ^ i) := by
  intro k
  induction k with
  | zero =>
    intro a lastExc h
    rw [List.range'_zero, retryLoop_nil]
    rfl
  | succ k ih =>
    intro a lastExc h
    rw [List.range'_succ]
    cases hs : attemptStep oracle a
    case succeed r =>
      rw [retryLoop_cons_succeed oracle maxR a _ lastExc r hs]
      rfl
    case failFast m =>
      rw [retryLoop_cons_failFast oracle maxR a _ lastExc m hs]
      rfl
    case retryable e =>
      rw [retryLoop_cons_retryable oracle maxR a _ lastExc e hs]
      cases k with
      | zero =>
        rw [List.range'_zero, retryLoop_nil,
            if_neg (by omega : ¬ a < maxR)]
        rfl
      | succ q =>
        have haltR : a < maxR := by omega
        have hpos : 1 ≤
            (retryLoop oracle maxR (List.range' (a + 1) (q + 1)) (some e)).attempts := by
          rw [List.range'_succ]
          exact retryLoop_attempts_pos oracle maxR (a + 1) _ (some e)
        obtain ⟨n, hn⟩ : ∃ n,
            (retryLoop oracle maxR (List.range' (a + 1) (q + 1)) (some e)).attempts
              = n + 1 :=
          ⟨(retryLoop oracle maxR (List.range' (a + 1) (q + 1)) (some e)).attempts - 1,
           by omega⟩
        have hrec := ih (a + 1) (some e) (by omega)
        rw [hn, Nat.add_sub_cancel] at hrec
        rw [if_pos haltR, hn, Nat.add_sub_cancel, hrec,
            List.range'_succ a n 1, List.map_cons, List.singleton_append]

/-- C2: when every attempt fails with a retryable failure,
`_make_request_with_retry` performs exactly `max_retries + 1` attempts and
then raises a `LangflowServiceError` whose message contains the attempt
count (for the default `max_retries = 3`, the text "4 attempts") and the
rendering of the last observed failure. -/
theorem make_request_with_retry_exhaustion
    (transport : HttpCall → Nat → AttemptResult) (call : HttpCall)
    (n : Nat) (f : Nat → PyExc)
    (h : ∀ i, i < n + 1 → attemptStep (transport call) i = .retryable (f i)) :
    (_make_request_with_retry transport call n).attempts = n + 1 ∧
    ∃ msg, (_make_request_with_retry transport call n).result =
        .serviceError msg ∧
      msg = exhaustedMsg n (some (f n)) ∧
      containsStr msg (toString (n + 1) ++ " attempts") ∧
      containsStr msg (excStr (f n)) := by
  have hall := retryLoop_all_retryable (transport call) n f n 0 none
    (fun i h1 h2 => h i (by omega))
  simp only [Nat.zero_add] at hall
  unfold _make_request_with_retry
  rw [List.range_eq_range']
  refine ⟨hall.1, exhaustedMsg n (some (f n)), hall.2, rfl, ?_, ?_⟩
  · refine ⟨"Failed to make request after ", ": " ++ excStr (f n), ?_⟩
    unfold exhaustedMsg
    simp only [string_append_assoc]
    have key : " attempts: " ++ excStr (f n)
        = " attempts" ++ (": " ++ excStr (f n)) := by
      rw [← string_append_assoc]
      rfl
    rw [key]
  · refine ⟨"Failed to make request after " ++ toString (n + 1) ++ " attempts: ",
      "", ?_⟩
    rw [String.append_empty]
    rfl

/-- Closed instance of the exhaustion theorem: a persistently timing-out
transport with the default `max_retries = 3` performs 4 attempts and the
raised message contains "4 attempts" and the timeout's rendering. -/
theorem make_request_with_retry_exhaustion_witness :
    (_make_request_with_retry allTimeout sampleCall 3).attempts = 3 + 1 ∧
    ∃ msg, (_make_request_with_retry allTimeout sampleCall 3).result =
        .serviceError msg ∧
      msg = exhaustedMsg 3 (some (.timeout "timed out")) ∧
      containsStr msg ("4" ++ " attempts") ∧
      containsStr msg (excStr (.timeout "timed out")) :=
  make_request_with_retry_exhaustion allTimeout sampleCall 3
    (fun _ => .timeout "timed out") (fun _ _ => rfl)

/-- C4: in every run of `_make_request_with_retry`, the waits between
consecutive attempts are exactly 2^0, 2^1, ..., one wait of 2^attempt
after each failed non-final attempt (attempt counted from 0) and no wait
after the final attempt; in particular a transport that times out on the
first attempt and succeeds on the second gives exactly 2 attempts and a
single sleep of 2^0 = 1 time unit. -/
theorem backoff_schedule :
    (∀ (transport : HttpCall → Nat → AttemptResult) (call : HttpCall) (n : Nat),
      (_make_request_with_retry transport call n).sleeps =
        (List.range ((_make_request_with_retry transport call n).attempts - 1)).map
          (fun i => 2 ^ i)) ∧
    (_make_request_with_retry timeoutThenOk sampleCall 3).attempts = 2 ∧
    (_make_request_with_retry timeoutThenOk sampleCall 3).sleeps = [2 ^ 0] := by
  refine ⟨?_, rfl, rfl⟩
  intro transport call n
  have hs := retryLoop_sleeps (transport call) n (n + 1) 0 none (by omega)
  unfold _make_request_with_retry
  rw [List.range_eq_range', hs, List.range_eq_range']

/-- C3 is refuted: a response with status 300 makes `raise_for_status`
raise `HTTPStatusError` (it is not a 2xx success), its status lies outside
[500, 600), yet the loop classifies it as retryable — and with
`max_retries = 1` the run indeed performs a second attempt. -/
theorem retry_classification_counterexample :
    attemptStep (transport300 sampleCall) 0 =
      .retryable (.httpStatus redirect300) ∧
    ¬ (500 ≤ redirect300.status ∧ redirect300.status < 600) ∧
    (_make_request_with_retry transport300 sampleCall 1).attempts = 2 :=
  ⟨rfl, by decide, rfl⟩

/-- C3 (amended): timeouts and connection failures are retryable; an HTTP
status error (raised for any non-2xx response) is retryable exactly when
its status is not in [400, 500) — in particular every status in [500, 600)
is retryable; and a response with status in [400, 500) on the first
attempt terminates the run after exactly one attempt with no sleep,
raising a `LangflowServiceError` whose message carries the status code and
the response body text. -/
theorem retry_classification_amended :
    (∀ (oracle : Nat → AttemptResult) (a : Nat) (m : String),
      oracle a = .timeoutExc m →
      attemptStep oracle a = .retryable (.timeout m)) ∧
    (∀ (oracle : Nat → AttemptResult) (a : Nat) (m : String),
      oracle a = .connectExc m →
      attemptStep oracle a = .retryable (.connect m)) ∧
    (∀ (oracle : Nat → AttemptResult) (a : Nat) (r : Response),
      oracle a = .response r → ¬ (200 ≤ r.status ∧ r.status < 300) →
      (attemptStep oracle a = .retryable (.httpStatus r) ↔
        ¬ (400 ≤ r.status ∧ r.status < 500))) ∧
    (∀ (transport : HttpCall → Nat → AttemptResult) (call : HttpCall)
      (n : Nat) (r : Response),
      transport call 0 = .response r → 400 ≤ r.status → r.status < 500 →
      _make_request_with_retry transport call n =
        ⟨1, [], .serviceError (clientErrorMsg r)⟩ ∧
      containsStr (clientErrorMsg r) (toString r.status) ∧
      containsStr (clientErrorMsg r) r.text) := by
  refine ⟨?_, ?_, ?_, ?_⟩
  · intro oracle a m h
    unfold attemptStep
    rw [h]
  · intro oracle a m h
    unfold attemptStep
    rw [h]
  · intro oracle a r h h1
    rw [attemptStep_response oracle a r h, if_neg h1]
    by_cases h2 : 400 ≤ r.status ∧ r.status < 500
    · rw [if_pos h2]
      simp [h2]
    · rw [if_neg h2]
      simp [h2]
  · intro transport call n r h h4 h5
    have ha : attemptStep (transport call) 0 = .failFast (clientErrorMsg r) := by
      rw [attemptStep_response (transport call) 0 r h,
          if_neg (by omega : ¬ (200 ≤ r.status ∧ r.status < 300)),
          if_pos ⟨h4, h5⟩]
    refine ⟨?_, ?_, ?_⟩
    · unfold _make_request_with_retry
      rw [List.range_succ_eq_map,
          retryLoop_cons_failFast (transport call) n 0 _ none _ ha]
    · refine ⟨"Client error ", ": " ++ r.text, ?_⟩
      unfold clientErrorMsg
      simp only [string_append_assoc]
    · refine ⟨"Client error " ++ toString r.status ++ ": ", "", ?_⟩
      rw [String.append_empty]
      rfl

/-- Closed instance of the amended classification: a 404 response on the
first attempt ends the run at once, with no sleep, and the message carries
the status code and the body text. -/
theorem retry_classification_amended_witness :
    _make_request_with_retry transport404 sampleCall 3 =
      ⟨1, [], .serviceError (clientErrorMsg notFound404)⟩ ∧
    containsStr (clientErrorMsg notFound404) (toString notFound404.status) ∧
    containsStr (clientErrorMsg notFound404) notFound404.text :=
  retry_classification_amended.2.2.2 transport404 sampleCall 3 notFound404
    rfl (by decide) (by decide)

/-- Unfolding of `execute_flow` when the retry primitive raised. -/
theorem execute_flow_serviceError (transport : HttpCall → Nat → AttemptResult)
    (baseUrl flowId : String) (req : FlowExecutionRequest) (msg : String)
    (h : (_make_request_with_retry transport (executeFlowCall baseUrl flowId req) 3).result
      = .serviceError msg) :
    execute_flow transport baseUrl flowId req = ⟨false, none, some msg⟩ := by
  unfold execute_flow
  rcases htr : _make_request_with_retry transport (executeFlowCall baseUrl flowId req) 3
    with ⟨att, sl, res⟩
  rw [htr] at h
  have h' : res = .serviceError msg := h
  subst h'
  rfl

/-- Unfolding of `execute_flow` when the request succeeded but the body
is not JSON. -/
theorem execute_flow_decodeError (transport : HttpCall → Nat → AttemptResult)
    (baseUrl flowId : String) (req : FlowExecutionRequest) (resp : Response)
    (m : String)
    (h : (_make_request_with_retry transport (executeFlowCall baseUrl flowId req) 3).result
      = .ok resp)
    (hj : resp.jsonBody = .error m) :
    execute_flow transport baseUrl flowId req =
      ⟨false, none, some ("Unexpected error during flow execution: " ++ m)⟩ := by
  unfold execute_flow
  rcases htr : _make_request_with_retry transport (executeFlowCall baseUrl flowId req) 3
    with ⟨att, sl, res⟩
  rw [htr] at h
  have h' : res = .ok resp := h
  subst h'
  rcases resp with ⟨st, tx, jb⟩
  have hj' : jb = .error m := hj
  subst hj'
  rfl

/-- Unfolding of `execute_flow` when the request succeeded and the body
decoded. -/
theorem execute_flow_success (transport : HttpCall → Nat → AttemptResult)
    (baseUrl flowId : String) (req : FlowExecutionRequest) (resp : Response)
    (body : Json)
    (h : (_make_request_with_retry transport (executeFlowCall baseUrl flowId req) 3).result
      = .ok resp)
    (hj : resp.jsonBody = .ok body) :
    execute_flow transport baseUrl flowId req = ⟨true, some body, none⟩ := by
  unfold execute_flow
  rcases htr : _make_request_with_retry transport (executeFlowCall baseUrl flowId req) 3
    with ⟨att, sl, res⟩
  rw [htr] at h
  have h' : res = .ok resp := h
  subst h'
  rcases resp with ⟨st, tx, jb⟩
  have hj' : jb = .ok body := hj
  subst hj'
  rfl

/-- C1: whenever the underlying request fails — the retry primitive raised
a `LangflowServiceError`, or the 2xx response body failed to decode as
JSON — `execute_flow` raises nothing and returns a response with
`success = false`, `result = None` and a nonempty error message. -/
theorem execute_flow_failure_no_raise
    (transport : HttpCall → Nat → AttemptResult)
    (baseUrl flowId : String) (req : FlowExecutionRequest)
    (h : (∃ msg,
        (_make_request_with_retry transport (executeFlowCall baseUrl flowId req) 3).result
          = .serviceError msg) ∨
      (∃ resp m,
        (_make_request_with_retry transport (executeFlowCall baseUrl flowId req) 3).result
          = .ok resp ∧ resp.jsonBody = .error m)) :
    ∃ e, execute_flow transport baseUrl flowId req = ⟨false, none, some e⟩ ∧
      e ≠ "" := by
  rcases h with ⟨msg, hmsg⟩ | ⟨resp, m, hok, hjson⟩
  · refine ⟨msg, execute_flow_serviceError transport baseUrl flowId req msg hmsg, ?_⟩
    exact retryLoop_serviceError_msg_ne_empty
      (transport (executeFlowCall baseUrl flowId req)) 3 (List.range 4) none msg hmsg
  · refine ⟨"Unexpected error during flow execution: " ++ m,
      execute_flow_decodeError transport baseUrl flowId req resp m hok hjson, ?_⟩
    exact append_ne_empty_left _ _ (by decide)

/-- Closed instance of the never-raise theorem: a persistently timing-out
transport yields a failure response with a nonempty message. -/
theorem execute_flow_failure_no_raise_witness :
    ∃ e, execute_flow allTimeout defaultBaseUrl "flow-1"
        (.withDefaults "hi") = ⟨false, none, some e⟩ ∧ e ≠ "" :=
  execute_flow_failure_no_raise allTimeout defaultBaseUrl "flow-1"
    (.withDefaults "hi")
    (Or.inl ⟨exhaustedMsg 3 (some (.timeout "timed out")), rfl⟩)

/-- C7: every response of `execute_flow` satisfies the result invariant —
on success the error is absent and the result echoes exactly the parsed
JSON body of the transport's response; on failure the result is absent and
an error message is present. -/
theorem execute_flow_result_invariant
    (transport : HttpCall → Nat → AttemptResult)
    (baseUrl flowId : String) (req : FlowExecutionRequest) :
    ((execute_flow transport baseUrl flowId req).success = true →
      (execute_flow transport baseUrl flowId req).error = none ∧
      ∃ resp body,
        (_make_request_with_retry transport (executeFlowCall baseUrl flowId req) 3).result
          = .ok resp ∧
        resp.jsonBody = .ok body ∧
        (execute_flow transport baseUrl flowId req).result = some body) ∧
    ((execute_flow transport baseUrl flowId req).success = false →
      (execute_flow transport baseUrl flowId req).result = none ∧
      ∃ m, (execute_flow transport baseUrl flowId req).error = some m) := by
  cases hres : (_make_request_with_retry transport (executeFlowCall baseUrl flowId req) 3).result
  case serviceError msg =>
    rw [execute_flow_serviceError transport baseUrl flowId req msg hres]
    exact ⟨fun hsucc => absurd hsucc (by simp), fun _ => ⟨rfl, msg, rfl⟩⟩
  case ok resp =>
    cases hjb : resp.jsonBody
    case error m =>
      rw [execute_flow_decodeError transport baseUrl flowId req resp m hres hjb]
      exact ⟨fun hsucc => absurd hsucc (by simp),
        fun _ => ⟨rfl, "Unexpected error during flow execution: " ++ m, rfl⟩⟩
    case ok body =>
      rw [execute_flow_success transport baseUrl flowId req resp body hres hjb]
      exact ⟨fun _ => ⟨rfl, resp, body, rfl, hjb, rfl⟩,
        fun hf => absurd hf (by simp)⟩

/-- Closed instance of the result invariant at a succeeding transport. -/
theorem execute_flow_result_invariant_witness :
    ((execute_flow (okTransport (.str "answer")) defaultBaseUrl "flow-1"
        (.withDefaults "hi")).success = true →
      (execute_flow (okTransport (.str "answer")) defaultBaseUrl "flow-1"
        (.withDefaults "hi")).error = none ∧
      ∃ resp body,
        (_make_request_with_retry (okTransport (.str "answer"))
          (executeFlowCall defaultBaseUrl "flow-1" (.withDefaults "hi")) 3).result
          = .ok resp ∧
        resp.jsonBody = .ok body ∧
        (execute_flow (okTransport (.str "answer")) defaultBaseUrl "flow-1"
          (.withDefaults "hi")).result = some body) ∧
    ((execute_flow (okTransport (.str "answer")) defaultBaseUrl "flow-1"
        (.withDefaults "hi")).success = false →
      (execute_flow (okTransport (.str "answer")) defaultBaseUrl "flow-1"
        (.withDefaults "hi")).result = none ∧
      ∃ m, (execute_flow (okTransport (.str "answer")) defaultBaseUrl "flow-1"
        (.withDefaults "hi")).error = some m) :=
  execute_flow_result_invariant (okTransport (.str "answer")) defaultBaseUrl
    "flow-1" (.withDefaults "hi")

/-- The validation loop keeps exactly the records that validate, in
order, when every item is a mapping. -/
theorem buildFlows_all_obj :
    ∀ (records : List Json), (∀ r ∈ records, ∃ kvs, r = Json.obj kvs) →
      buildFlows records = .ok (validFlowsOf records) := by
  intro records
  induction records with
  | nil => intro _; rfl
  | cons r rest ih =>
    intro h
    obtain ⟨kvs, hk⟩ := h r (List.mem_cons_self r rest)
    subst hk
    have hrest := ih (fun x hx => h x (List.mem_cons_of_mem _ hx))
    cases hp : parseFlowRecord kvs with
    | ok f =>
      simp [buildFlows, hp, hrest, validFlowsOf, List.filterMap_cons,
        Except.map, Except.toOption]
    | error err =>
      simp [buildFlows, hp, hrest, validFlowsOf, List.filterMap_cons,
        Except.toOption]

/-- C5: for a response body that is a list of records, `get_flows` returns
exactly one parsed flow per record that validates against the Flow schema,
in the order received; records failing validation are skipped without
failing the call and without affecting the other records. -/
theorem get_flows_valid_records (records : List Json)
    (h : ∀ r ∈ records, ∃ kvs, r = Json.obj kvs) (baseUrl : String) :
    get_flows (okTransport (.arr records)) baseUrl =
      .ok (validFlowsOf records) := by
  have h1 : get_flows (okTransport (.arr records)) baseUrl =
      processFlowsBody (.arr records) := rfl
  have h2 : processFlowsBody (.arr records) =
      match buildFlows records with
      | .error m => .error ("Failed to fetch flows: " ++ m)
      | .ok flows => .ok flows := rfl
  rw [h1, h2, buildFlows_all_obj records h]

/-- Closed instance of the record-validation theorem: of three records
with one invalid in the middle, the two valid ones come back in order. -/
theorem get_flows_valid_records_witness :
    get_flows
        (okTransport (.arr [sampleFlowRecord, invalidFlowRecord, sampleFlowRecord]))
        defaultBaseUrl =
      .ok (validFlowsOf [sampleFlowRecord, invalidFlowRecord, sampleFlowRecord]) :=
  get_flows_valid_records [sampleFlowRecord, invalidFlowRecord, sampleFlowRecord]
    (by
      intro r hr
      simp only [List.mem_cons, List.not_mem_nil, or_false] at hr
      rcases hr with rfl | rfl | rfl
      · exact ⟨_, rfl⟩
      · exact ⟨_, rfl⟩
      · exact ⟨_, rfl⟩)
    defaultBaseUrl

/-- C6: a bare list body and the same list wrapped as the value of a
"flows" key produce identical `get_flows` output. -/
theorem get_flows_wrapper_equivalence (records : List Json) (baseUrl : String) :
    get_flows (okTransport (.arr records)) baseUrl =
      get_flows (okTransport (.obj [("flows", .arr records)])) baseUrl := rfl

/-- The shape dispatch raises the unexpected-format error exactly on
bodies that are neither lists nor dicts with a "flows" key. -/
theorem extractFlowsData_unexpected (body : Json)
    (h1 : isArrB body = false) (h2 : hasFlowsKeyB body = false) :
    extractFlowsData body = .error (unexpectedFormatMsg body) := by
  cases body with
  | null => rfl
  | bool b => rfl
  | num n => rfl
  | str s => rfl
  | arr xs => exact absurd h1 (by simp [isArrB])
  | obj kvs =>
    have hx : extractFlowsData (.obj kvs) =
        (match getKey kvs "flows" with
         | some v => Except.ok v
         | none => Except.error (unexpectedFormatMsg (.obj kvs))) := rfl
    rw [hx]
    cases hk : getKey kvs "flows" with
    | none => rfl
    | some v =>
      exfalso
      have hflows : hasFlowsKeyB (.obj kvs) = (getKey kvs "flows").isSome := rfl
      rw [hflows, hk] at h2
      exact absurd h2 (by simp)

/-- C8: a response body that is neither a list nor a dict containing a
"flows" key makes `get_flows` raise a Service Error immediately; no
records are parsed and nothing is returned. -/
theorem get_flows_unexpected_shape (body : Json)
    (h1 : isArrB body = false) (h2 : hasFlowsKeyB body = false)
    (baseUrl : String) :
    get_flows (okTransport body) baseUrl =
      .error (unexpectedFormatMsg body) := by
  have h0 : get_flows (okTransport body) baseUrl = processFlowsBody body := rfl
  rw [h0]
  unfold processFlowsBody
  rw [extractFlowsData_unexpected body h1 h2]

/-- Closed instance of the unexpected-shape theorem at a string body. -/
theorem get_flows_unexpected_shape_witness :
    get_flows (okTransport (.str "oops")) defaultBaseUrl =
      .error (unexpectedFormatMsg (.str "oops")) :=
  get_flows_unexpected_shape (.str "oops") rfl rfl defaultBaseUrl

/-- C10 is refuted on its second half: with the body
`{"flows": ""}` — a "flows" value that is not a list — `get_flows` does
not fail at all: the iteration over the empty string yields nothing and
the call returns the empty list. -/
theorem get_flows_nonlist_flows_counterexample :
    isArrB (.str "") = false ∧
    get_flows (okTransport (.obj [("flows", .str "")])) defaultBaseUrl =
      .ok [] :=
  ⟨rfl, rfl⟩

/-- C10 (amended): the shape check tests only the presence of the "flows"
key, so no body `{"flows": v}` raises the unexpected-format error; when
`v` is an empty string or an empty dict the iteration yields nothing and
`get_flows` returns the empty list, and for every other non-list `v` the
later iteration or `**` unpacking raises, the exception surfacing as a
Service Error whose message begins "Failed to fetch flows". -/
theorem get_flows_nonlist_flows_amended (v : Json) (hv : isArrB v = false) :
    ((v = .str "" ∨ v = .obj []) →
      get_flows (okTransport (.obj [("flows", v)])) defaultBaseUrl = .ok []) ∧
    (¬ (v = .str "" ∨ v = .obj []) →
      ∃ m, get_flows (okTransport (.obj [("flows", v)])) defaultBaseUrl =
        .error ("Failed to fetch flows: " ++ m)) := by
  cases v with
  | null =>
    refine ⟨fun h => ?_, fun _ => ⟨_, rfl⟩⟩
    rcases h with h | h <;> exact Json.noConfusion h
  | bool b =>
    refine ⟨fun h => ?_, fun _ => ⟨_, rfl⟩⟩
    rcases h with h | h <;> exact Json.noConfusion h
  | num n =>
    refine ⟨fun h => ?_, fun _ => ⟨_, rfl⟩⟩
    rcases h with h | h <;> exact Json.noConfusion h
  | arr xs => exact absurd hv (by simp [isArrB])
  | str s =>
    rcases s with ⟨cs⟩
    cases cs with
    | nil => exact ⟨fun _ => rfl, fun hn => absurd (Or.inl rfl) hn⟩
    | cons c cs' =>
      refine ⟨fun h => ?_, fun _ => ⟨_, rfl⟩⟩
      rcases h with h | h
      · injection h with hs
        have hd : c :: cs' = ([] : List Char) := congrArg String.data hs
        exact List.noConfusion hd
      · exact Json.noConfusion h
  | obj kvs =>
    cases kvs with
    | nil => exact ⟨fun _ => rfl, fun hn => absurd (Or.inr rfl) hn⟩
    | cons kv rest =>
      refine ⟨fun h => ?_, fun _ => ⟨_, rfl⟩⟩
      rcases h with h | h
      · exact Json.noConfusion h
      · injection h with hk
        exact List.noConfusion hk

/-- Closed instance of the amended non-list theorem at an empty-dict
"flows" value: it returns the empty list, not an error. -/
theorem get_flows_nonlist_flows_amended_witness :
    ((Json.obj [] = .str "" ∨ Json.obj [] = .obj []) →
      get_flows (okTransport (.obj [("flows", .obj [])])) defaultBaseUrl =
        .ok []) ∧
    (¬ (Json.obj [] = .str "" ∨ Json.obj [] = .obj []) →
      ∃ m, get_flows (okTransport (.obj [("flows", .obj [])])) defaultBaseUrl =
        .error ("Failed to fetch flows: " ++ m)) :=
  get_flows_nonlist_flows_amended (.obj []) rfl

/-- C9: the single call `execute_flow` hands to the retry primitive is a
POST to the per-flow run endpoint under the configured base URL, with the
JSON content-type header, and its JSON payload holds exactly the four
request-model keys; the model defaults `output_type` and `input_type` to
"chat" and `tweaks` to the empty mapping.  The hypotheses delimit the
modelled `urljoin` fragment: the flow id adds a single plain path
segment. -/
theorem execute_flow_request_shape (flowId : String)
    (req : FlowExecutionRequest)
    (_h1 : flowId ≠ ".") (_h2 : flowId ≠ "..")
    (_h3 : ∀ c ∈ flowId.data, c ≠ '/' ∧ c ≠ '?' ∧ c ≠ '#') :
    (executeFlowCall defaultBaseUrl flowId req).method = "POST" ∧
    (executeFlowCall defaultBaseUrl flowId req).url =
      defaultBaseUrl ++ "/api/v1/run/" ++ flowId ∧
    (executeFlowCall defaultBaseUrl flowId req).headers =
      [("Content-Type", "application/json")] ∧
    (executeFlowCall defaultBaseUrl flowId req).jsonPayload =
      some req.model_dump ∧
    jsonObjKeys req.model_dump =
      ["input_value", "output_type", "input_type", "tweaks"] ∧
    (∀ s : String, FlowExecutionRequest.withDefaults s =
      ⟨s, "chat", "chat", []⟩) := by
  refine ⟨rfl, ?_, rfl, rfl, rfl, fun s => rfl⟩
  have hurl : (executeFlowCall defaultBaseUrl flowId req).url =
      "http://localhost:7860" ++ ("/api/v1/run/" ++ flowId) := rfl
  rw [hurl, ← string_append_assoc]
  rfl

/-- Closed instance of the request-shape theorem at the hard-coded test
flow id. -/
theorem execute_flow_request_shape_witness :
    (executeFlowCall defaultBaseUrl "de90b072-14d5-4983-b9ac-85156fef9bb4"
      (.withDefaults "hello")).method = "POST" ∧
    (executeFlowCall defaultBaseUrl "de90b072-14d5-4983-b9ac-85156fef9bb4"
      (.withDefaults "hello")).url =
      defaultBaseUrl ++ "/api/v1/run/" ++ "de90b072-14d5-4983-b9ac-85156fef9bb4" ∧
    (executeFlowCall defaultBaseUrl "de90b072-14d5-4983-b9ac-85156fef9bb4"
      (.withDefaults "hello")).headers =
      [("Content-Type", "application/json")] ∧
    (executeFlowCall defaultBaseUrl "de90b072-14d5-4983-b9ac-85156fef9bb4"
      (.withDefaults "hello")).jsonPayload =
      some (FlowExecutionRequest.withDefaults "hello").model_dump ∧
    jsonObjKeys (FlowExecutionRequest.withDefaults "hello").model_dump =
      ["input_value", "output_type", "input_type", "tweaks"] ∧
    (∀ s : String, FlowExecutionRequest.withDefaults s =
      ⟨s, "chat", "chat", []⟩) :=
  execute_flow_request_shape "de90b072-14d5-4983-b9ac-85156fef9bb4"
    (.withDefaults "hello") (by decide) (by decide) (by decide)

end Langflow
